import Mathlib

/-!
Verification of `src/target/icepick.c` (TI ICEPick router TAP addressing)
as a shallow embedding in Lean 4.

The C file defines two functions over a global JTAG device table:
- `icepick_write_ir(device, ir)`: puts every device into bypass
  (`current_ir = UINT32_MAX`), sets the target's `current_ir = ir`, then
  performs one chain-wide IR shift: enter Shift-IR, clock out
  `ir_prescan` ones (not final), clock out `ir_len` bits of `ir`
  (final iff `ir_postscan == 0`), clock out `ir_postscan` ones (final),
  and finally `jtagtap_return_idle(0)` (go to Update-IR, not Idle).
- `icepick_router_handler(dev_index)`: writes `IR_ICEPICKCODE` through
  `icepick_write_ir`, shifts 32 bits out of the data register, and
  classifies the resulting identification code against
  `ICEPICK_TYPE_MASK` / `ICEPICK_TYPE_D`.

The chain transport (`jtagtap_*`, `jtag_dev_shift_dr`) is an external
collaborator; we record the calls the core makes to it as a trace of
`TapEvent`s, with each `tdi_seq` call carrying the expanded list of bits
it presents (the `ones` buffer is the all-ones filler buffer, and the
instruction buffer is the single byte `ir`).
-/

namespace Icepick

/-- `IR_ROUTER` from icepick.c. -/
def IR_ROUTER : Nat := 0x02

/-- `IR_ICEPICKCODE` from icepick.c: the identification-read instruction. -/
def IR_ICEPICKCODE : Nat := 0x05

/-- `IR_CONNECT` from icepick.c. -/
def IR_CONNECT : Nat := 0x07

/-- `ICEPICK_TYPE_MASK` from icepick.c: bits 4..15 of the ID code. -/
def ICEPICK_TYPE_MASK : Nat := 0xfff0

/-- `ICEPICK_TYPE_C` from icepick.c (from SPRUH35). -/
def ICEPICK_TYPE_C : Nat := 0x1cc0

/-- `ICEPICK_TYPE_D` from icepick.c (from a BeagleBone Black Industrial). -/
def ICEPICK_TYPE_D : Nat := 0xb3d0

/-- `ICEPICK_MAJOR_SHIFT` from icepick.c. -/
def ICEPICK_MAJOR_SHIFT : Nat := 28

/-- `ICEPICK_MAJOR_MASK` from icepick.c. -/
def ICEPICK_MAJOR_MASK : Nat := 0xf

/-- `ICEPICK_MINOR_SHIFT` from icepick.c. -/
def ICEPICK_MINOR_SHIFT : Nat := 24

/-- `ICEPICK_MINOR_MASK` from icepick.c. -/
def ICEPICK_MINOR_MASK : Nat := 0xf

/-- `UINT32_MAX`, the bypass sentinel stored into `current_ir`. -/
def UINT32_MAX : Nat := 0xffffffff

/-- One entry of the global `jtag_devs` table (fields of `jtag_dev_s`
used by icepick.c): fixed IR length and prescan/postscan bit counts,
plus the mutable `current_ir` field. -/
structure jtag_dev_s where
  ir_len : Nat
  ir_prescan : Nat
  ir_postscan : Nat
  current_ir : Nat
deriving DecidableEq, Repr

/-- Default device used for out-of-range table reads in the model. -/
def defaultDev : jtag_dev_s := ⟨0, 0, 0, 0⟩

/-- One call made to the external chain transport:
`shiftIR` is `jtagtap_shift_ir()`; `tdiSeq final bits` is
`jtag_proc.jtagtap_tdi_seq(final, buf, n)` with `bits` the `n` bits the
buffer presents (LSB-first); `shiftDR n` is `jtag_dev_shift_dr(..., n)`;
`returnIdle n` is `jtagtap_return_idle(n)`. -/
inductive TapEvent where
  | shiftIR : TapEvent
  | tdiSeq : Bool → List Bool → TapEvent
  | shiftDR : Nat → TapEvent
  | returnIdle : Nat → TapEvent
deriving DecidableEq, Repr

/-- The `ir_len` bits presented by passing the single byte `ir` to
`jtagtap_tdi_seq`: bit `i` of the byte value `ir % 256`, LSB first
(bits past the one-byte buffer read as 0 in the model). -/
def irBits (ir len : Nat) : List Bool :=
  (List.range len).map (fun i => (ir % 256).testBit i)

/-- `icepick_write_ir(device, ir)` from icepick.c, with the device given
by its index into the table and the `uint8_t` parameter truncated to a
byte. Returns the updated device table and the trace of transport calls:
set every `current_ir` to `UINT32_MAX`, set the target's `current_ir` to
`ir`, then `jtagtap_shift_ir()`; `tdi_seq(false, ones, ir_prescan)`;
`tdi_seq(!ir_postscan, &ir, ir_len)`; `tdi_seq(true, ones, ir_postscan)`;
`jtagtap_return_idle(0)`. -/
def icepick_write_ir (devs : List jtag_dev_s) (dev_index : Nat) (ir : Nat) :
    List jtag_dev_s × List TapEvent :=
  ((devs.map (fun e => { e with current_ir := UINT32_MAX })).set dev_index
      { devs.getD dev_index defaultDev with current_ir := ir % 256 },
    [TapEvent.shiftIR,
      TapEvent.tdiSeq false
        (List.replicate (devs.getD dev_index defaultDev).ir_prescan true),
      TapEvent.tdiSeq (decide ((devs.getD dev_index defaultDev).ir_postscan = 0))
        (irBits ir (devs.getD dev_index defaultDev).ir_len),
      TapEvent.tdiSeq true
        (List.replicate (devs.getD dev_index defaultDev).ir_postscan true),
      TapEvent.returnIdle 0])

/-- Outcome of `icepick_router_handler` as reported upward through its
logging: a type mismatch carrying the raw code (the `DEBUG_ERROR` early
return), or acceptance carrying major revision, minor revision and the
raw code (the `DEBUG_INFO` line). -/
inductive IdentResult where
  | mismatch : Nat → IdentResult
  | ok : Nat → Nat → Nat → IdentResult
deriving DecidableEq, Repr

/-- `icepick_router_handler(dev_index)` from icepick.c. The 32-bit word
delivered by the external `jtag_dev_shift_dr` call is the parameter
`idcode` (truncated to 32 bits as the `uint32_t` it is read into).
Returns the updated device table, the trace of transport calls, and the
classification result. -/
def icepick_router_handler (devs : List jtag_dev_s) (dev_index : Nat)
    (idcode : Nat) : List jtag_dev_s × List TapEvent × IdentResult :=
  let wr := icepick_write_ir devs dev_index IR_ICEPICKCODE
  let code := idcode % 2 ^ 32
  let result :=
    if code &&& ICEPICK_TYPE_MASK ≠ ICEPICK_TYPE_D then
      IdentResult.mismatch code
    else
      IdentResult.ok ((code >>> ICEPICK_MAJOR_SHIFT) &&& ICEPICK_MAJOR_MASK)
        ((code >>> ICEPICK_MINOR_SHIFT) &&& ICEPICK_MINOR_MASK) code
  (wr.1, wr.2 ++ [TapEvent.shiftDR 32], result)

/-- One bit as presented to the transport: its value and whether the
transport is told it is the final bit of the shift (the bit that
triggers the exit from Shift-IR). -/
structure ShiftedBit where
  value : Bool
  exitFlag : Bool
deriving DecidableEq, Repr

/-- Attach the exit flag `f` to the last bit of a list of shifted bits;
all earlier bits carry `false`. -/
def flagLast (f : Bool) : List Bool → List ShiftedBit
  | [] => []
  | [b] => [⟨b, f⟩]
  | b :: c :: rest => ⟨b, false⟩ :: flagLast f (c :: rest)

/-- The bits a single transport call presents on the wire. -/
def eventBits : TapEvent → List ShiftedBit
  | TapEvent.tdiSeq f bits => flagLast f bits
  | _ => []

/-- The full bit sequence a trace of transport calls presents. -/
def traceBits (tr : List TapEvent) : List ShiftedBit :=
  (tr.map eventBits).flatten

/-- The bit sequence the spec (§4.1 steps 3-5, §8) prescribes for
`write_instruction(d, x)`: `prescan` ones with exit flag false, the
`ir_len`-bit encoding of `x` whose final bit carries the exit flag iff
`postscan = 0`, then `postscan` ones whose final bit carries the exit
flag. Written from the spec's words, for comparison with `traceBits` of
the code's trace. -/
def specBits (d : jtag_dev_s) (x : Nat) : List ShiftedBit :=
  List.replicate d.ir_prescan ⟨true, false⟩
    ++ flagLast (decide (d.ir_postscan = 0))
      ((List.range d.ir_len).map (fun i => x.testBit i))
    ++ flagLast true (List.replicate d.ir_postscan true)

/-- The `tdi_seq` calls of a trace, in order. -/
def isTdiSeq : TapEvent → Bool
  | TapEvent.tdiSeq _ _ => true
  | _ => false

/-- Is this transport call a `jtagtap_return_idle` call? -/
def isReturnIdle : TapEvent → Bool
  | TapEvent.returnIdle _ => true
  | _ => false

/-- Does this transport call ask the transport to go (beyond Update-IR)
toward the Idle/Reset state? Per the spec's transport interface,
`return_to_state(depth)` with `depth = 0` stops at Update-IR; a positive
depth continues toward idle. No other call requests idle. -/
def requestsIdle : TapEvent → Bool
  | TapEvent.returnIdle n => decide (0 < n)
  | _ => false

/-- Modelled from the spec: the TAP state-machine states named by the
spec (§4.1, §6, glossary). The transport that walks this machine
(`jtagtap_*`) is not under src/. -/
inductive TapState where
  | idleReset : TapState
  | shiftIRState : TapState
  | exit1IR : TapState
  | updateIR : TapState
deriving DecidableEq, Repr

/-- Modelled from the spec: the effect of one transport call on the TAP
state (§6): `enter_shift_ir` drives the machine into Shift-IR; a shift
whose `is_last` flag is set exits Shift-IR into Exit1-IR on its final
bit (a zero-bit shift clocks nothing and moves nowhere);
`return_to_state(0)` moves from Exit1-IR to Update-IR, a positive depth
continues toward Idle/Reset. The DR-shift helper's internal walking is
the transport's own and is not modelled. -/
def tapStep (s : TapState) : TapEvent → TapState
  | TapEvent.shiftIR => TapState.shiftIRState
  | TapEvent.tdiSeq f bits =>
      if s = TapState.shiftIRState ∧ f = true ∧ bits ≠ [] then
        TapState.exit1IR
      else s
  | TapEvent.shiftDR _ => s
  | TapEvent.returnIdle n =>
      if s = TapState.exit1IR then
        (if n = 0 then TapState.updateIR else TapState.idleReset)
      else s

/-- The TAP state after running a trace of transport calls from `s`. -/
def runTap (s : TapState) (tr : List TapEvent) : TapState :=
  tr.foldl tapStep s

/-- The sequence of TAP states visited while running a trace from `s`
(including the start state). -/
def tapStates (s : TapState) : List TapEvent → List TapState
  | [] => [s]
  | e :: rest => s :: tapStates (tapStep s e) rest

/-- Collapse adjacent duplicates in a state sequence. -/
def collapse : List TapState → List TapState
  | [] => []
  | [s] => [s]
  | a :: b :: rest =>
      if a = b then collapse (b :: rest) else a :: collapse (b :: rest)

/-! ## Helper lemmas -/

lemma write_ir_fst (devs : List jtag_dev_s) (i x : Nat) :
    (icepick_write_ir devs i x).1 =
      (devs.map (fun e => { e with current_ir := UINT32_MAX })).set i
        { devs.getD i defaultDev with current_ir := x % 256 } := rfl

lemma write_ir_snd (devs : List jtag_dev_s) (i x : Nat) :
    (icepick_write_ir devs i x).2 =
      [TapEvent.shiftIR,
        TapEvent.tdiSeq false
          (List.replicate (devs.getD i defaultDev).ir_prescan true),
        TapEvent.tdiSeq (decide ((devs.getD i defaultDev).ir_postscan = 0))
          (irBits x (devs.getD i defaultDev).ir_len),
        TapEvent.tdiSeq true
          (List.replicate (devs.getD i defaultDev).ir_postscan true),
        TapEvent.returnIdle 0] := rfl

lemma router_fst (devs : List jtag_dev_s) (i code : Nat) :
    (icepick_router_handler devs i code).1 =
      (icepick_write_ir devs i IR_ICEPICKCODE).1 := rfl

lemma router_trace (devs : List jtag_dev_s) (i code : Nat) :
    (icepick_router_handler devs i code).2.1 =
      (icepick_write_ir devs i IR_ICEPICKCODE).2 ++ [TapEvent.shiftDR 32] := rfl

lemma router_result (devs : List jtag_dev_s) (i code : Nat) :
    (icepick_router_handler devs i code).2.2 =
      (if code % 2 ^ 32 &&& ICEPICK_TYPE_MASK ≠ ICEPICK_TYPE_D then
        IdentResult.mismatch (code % 2 ^ 32)
      else
        IdentResult.ok
          (((code % 2 ^ 32) >>> ICEPICK_MAJOR_SHIFT) &&& ICEPICK_MAJOR_MASK)
          (((code % 2 ^ 32) >>> ICEPICK_MINOR_SHIFT) &&& ICEPICK_MINOR_MASK)
          (code % 2 ^ 32)) := rfl

lemma flagLast_false (l : List Bool) :
    flagLast false l = l.map (fun b => ⟨b, false⟩) := by
  induction l with
  | nil => rfl
  | cons b t ih =>
      cases t with
      | nil => rfl
      | cons c r => simpa [flagLast] using ih

lemma irBits_ne_nil (x len : Nat) (h : 0 < len) : irBits x len ≠ [] := by
  simp only [irBits, ne_eq, List.map_eq_nil_iff, List.range_eq_nil]
  omega

lemma getD_out_of_range (devs : List jtag_dev_s) (j : Nat)
    (h : devs.length ≤ j) : devs.getD j defaultDev = defaultDev := by
  rw [List.getD_eq_getElem?_getD, List.getElem?_eq_none h]
  rfl

lemma write_ir_getElem? (devs : List jtag_dev_s) (i x j : Nat) :
    (icepick_write_ir devs i x).1[j]? =
      if j = i then devs[j]?.map (fun e => { e with current_ir := x % 256 })
      else devs[j]?.map (fun e => { e with current_ir := UINT32_MAX }) := by
  rw [write_ir_fst, List.getElem?_set]
  by_cases h : j = i
  · subst h
    rw [if_pos rfl, if_pos rfl, List.length_map]
    by_cases hl : j < devs.length
    · have hg : devs.getD j defaultDev = devs[j] := by
        rw [List.getD_eq_getElem?_getD, List.getElem?_eq_getElem hl]
        rfl
      rw [if_pos hl, List.getElem?_eq_getElem hl, hg]
      rfl
    · rw [if_neg hl, List.getElem?_eq_none (Nat.le_of_not_lt hl)]
      rfl
  · rw [if_neg (fun hh => h hh.symm), if_neg h, List.getElem?_map]

lemma write_ir_getD (devs : List jtag_dev_s) (i x j : Nat) :
    (icepick_write_ir devs i x).1.getD j defaultDev =
      if j < devs.length then
        (if j = i then { devs.getD j defaultDev with current_ir := x % 256 }
         else { devs.getD j defaultDev with current_ir := UINT32_MAX })
      else defaultDev := by
  rw [List.getD_eq_getElem?_getD, write_ir_getElem?]
  by_cases hl : j < devs.length
  · have hg : devs.getD j defaultDev = devs[j] := by
      rw [List.getD_eq_getElem?_getD, List.getElem?_eq_getElem hl]
      rfl
    rw [if_pos hl, List.getElem?_eq_getElem hl, hg]
    by_cases h : j = i
    · rw [if_pos h, if_pos h]
      rfl
    · rw [if_neg h, if_neg h]
      rfl
  · rw [if_neg hl, List.getElem?_eq_none (Nat.le_of_not_lt hl)]
    by_cases h : j = i
    · rw [if_pos h]
      rfl
    · rw [if_neg h]
      rfl

lemma write_ir_getD_attrs (devs : List jtag_dev_s) (i x j : Nat) :
    ((icepick_write_ir devs i x).1.getD j defaultDev).ir_len =
        (devs.getD j defaultDev).ir_len ∧
      ((icepick_write_ir devs i x).1.getD j defaultDev).ir_prescan =
        (devs.getD j defaultDev).ir_prescan ∧
      ((icepick_write_ir devs i x).1.getD j defaultDev).ir_postscan =
        (devs.getD j defaultDev).ir_postscan := by
  rw [write_ir_getD]
  by_cases hl : j < devs.length
  · rw [if_pos hl]
    by_cases h : j = i <;> simp [h]
  · rw [if_neg hl, getD_out_of_range devs j (Nat.le_of_not_lt hl)]
    exact ⟨rfl, rfl, rfl⟩

/-! ## Claim theorems -/

/-- C1: for every device in the chain and every instruction byte, the bit
sequence `icepick_write_ir` presents to the transport is exactly
`prescan` ones with the exit flag false, then the `ir_len`-bit encoding
of the instruction whose final bit carries the exit flag iff
`postscan = 0`, then `postscan` ones whose final (last overall) bit
carries the exit flag. -/
theorem write_ir_bit_sequence (devs : List jtag_dev_s) (i x : Nat)
    (hx : x < 256) :
    traceBits (icepick_write_ir devs i x).2 =
      specBits (devs.getD i defaultDev) x := by
  rw [write_ir_snd]
  simp only [traceBits, List.map_cons, List.map_nil, eventBits,
    List.flatten_cons, List.flatten_nil, List.append_nil, List.nil_append,
    specBits, irBits, Nat.mod_eq_of_lt hx, flagLast_false,
    List.map_replicate, List.append_assoc]

/-- Witness for C1: the spec's 3-device example — chain with
`ir_length = [4, 6, 4]`, target device 1 (`prescan = 4, postscan = 4`),
instruction `0b101010` — yields 4 ones (not last), the 6 bits of
`0b101010` LSB-first (none of them flagged, since postscan > 0), then 4
ones whose last bit is flagged as the exit bit. -/
theorem write_ir_bit_sequence_witness :
    traceBits
        (icepick_write_ir [⟨4, 0, 10, 0⟩, ⟨6, 4, 4, 0⟩, ⟨4, 10, 0, 0⟩] 1 42).2 =
        specBits (([⟨4, 0, 10, 0⟩, ⟨6, 4, 4, 0⟩,
          ⟨4, 10, 0, 0⟩] : List jtag_dev_s).getD 1 defaultDev) 42 ∧
      specBits (([⟨4, 0, 10, 0⟩, ⟨6, 4, 4, 0⟩,
          ⟨4, 10, 0, 0⟩] : List jtag_dev_s).getD 1 defaultDev) 42 =
        [⟨true, false⟩, ⟨true, false⟩, ⟨true, false⟩, ⟨true, false⟩,
          ⟨false, false⟩, ⟨true, false⟩, ⟨false, false⟩, ⟨true, false⟩,
          ⟨false, false⟩, ⟨true, false⟩,
          ⟨true, false⟩, ⟨true, false⟩, ⟨true, false⟩, ⟨true, true⟩] :=
  ⟨write_ir_bit_sequence [⟨4, 0, 10, 0⟩, ⟨6, 4, 4, 0⟩, ⟨4, 10, 0, 0⟩] 1 42
      (by decide),
    by decide⟩

/-- C2: after `icepick_write_ir devs i x` with `i` in the chain, device
`i`'s `current_ir` is `x` and every other device's `current_ir` is the
bypass sentinel `UINT32_MAX`, whatever the table held before. -/
theorem write_ir_selects_target (devs : List jtag_dev_s) (i x j : Nat)
    (hi : i < devs.length) (hx : x < 256) (hj : j < devs.length) :
    ((icepick_write_ir devs i x).1.getD j defaultDev).current_ir =
      if j = i then x else UINT32_MAX := by
  have _ := hi
  rw [write_ir_getD, if_pos hj]
  by_cases h : j = i <;> simp [h, Nat.mod_eq_of_lt hx]

/-- Witness for C2: concrete two-device table with stale contents;
targeting device 0 with instruction 7 sets device 0's `current_ir` to 7
and device 1's to the bypass sentinel. -/
theorem write_ir_selects_target_witness :
    ((icepick_write_ir [⟨4, 0, 6, 3⟩, ⟨6, 4, 0, 9⟩] 0 7).1.getD 0
        defaultDev).current_ir = 7 ∧
      ((icepick_write_ir [⟨4, 0, 6, 3⟩, ⟨6, 4, 0, 9⟩] 0 7).1.getD 1
        defaultDev).current_ir = UINT32_MAX :=
  ⟨(write_ir_selects_target [⟨4, 0, 6, 3⟩, ⟨6, 4, 0, 9⟩] 0 7 0 (by decide)
      (by decide) (by decide)).trans (by decide),
    (write_ir_selects_target [⟨4, 0, 6, 3⟩, ⟨6, 4, 0, 9⟩] 0 7 1 (by decide)
      (by decide) (by decide)).trans (by decide)⟩

/-- C3: `icepick_router_handler` reports a mismatch carrying the raw
32-bit code exactly when `code &&& ICEPICK_TYPE_MASK` differs from
`ICEPICK_TYPE_D`; on equality it reports acceptance with
`major = (code >>> 28) &&& 0xf`, `minor = (code >>> 24) &&& 0xf` and the
raw code. -/
theorem router_handler_classification (devs : List jtag_dev_s) (i code : Nat)
    (hc : code < 2 ^ 32) :
    ((icepick_router_handler devs i code).2.2 = IdentResult.mismatch code ↔
        code &&& ICEPICK_TYPE_MASK ≠ ICEPICK_TYPE_D) ∧
      (code &&& ICEPICK_TYPE_MASK = ICEPICK_TYPE_D →
        (icepick_router_handler devs i code).2.2 =
          IdentResult.ok ((code >>> 28) &&& 0xf) ((code >>> 24) &&& 0xf)
            code) := by
  have hr := router_result devs i code
  rw [Nat.mod_eq_of_lt hc] at hr
  by_cases hm : code &&& ICEPICK_TYPE_MASK = ICEPICK_TYPE_D
  · rw [hr, if_neg (not_not.mpr hm)]
    refine ⟨?_, fun _ => rfl⟩
    simp [hm]
  · rw [hr, if_pos hm]
    exact ⟨by simp [hm], fun h => absurd h hm⟩

/-- Witness for C3: code `0x1234B3D5` is accepted with major 1 and
minor 2; code `0x1234C3D5` is rejected as a mismatch carrying
`0x1234C3D5`. -/
theorem router_handler_classification_witness :
    (icepick_router_handler [⟨6, 0, 0, 0⟩] 0 0x1234b3d5).2.2 =
        IdentResult.ok 1 2 0x1234b3d5 ∧
      (icepick_router_handler [⟨6, 0, 0, 0⟩] 0 0x1234c3d5).2.2 =
        IdentResult.mismatch 0x1234c3d5 :=
  ⟨((router_handler_classification [⟨6, 0, 0, 0⟩] 0 0x1234b3d5
        (by decide)).2 (by decide)).trans (by decide),
    (router_handler_classification [⟨6, 0, 0, 0⟩] 0 0x1234c3d5
        (by decide)).1.mpr (by decide)⟩

/-- C10: the handler accepts exactly the type-D signature: a code is
accepted iff its type field equals `ICEPICK_TYPE_D`, and in particular a
genuine type-C controller (type field `ICEPICK_TYPE_C = 0x1cc0`, a
distinct constant) is rejected as a mismatch. -/
theorem router_accepts_only_type_d (devs : List jtag_dev_s) (i code : Nat)
    (hc : code < 2 ^ 32) :
    ((∃ maj mino, (icepick_router_handler devs i code).2.2 =
          IdentResult.ok maj mino code) ↔
        code &&& ICEPICK_TYPE_MASK = ICEPICK_TYPE_D) ∧
      (code &&& ICEPICK_TYPE_MASK = ICEPICK_TYPE_C →
        (icepick_router_handler devs i code).2.2 =
          IdentResult.mismatch code) ∧
      ICEPICK_TYPE_C ≠ ICEPICK_TYPE_D := by
  have hr := router_result devs i code
  rw [Nat.mod_eq_of_lt hc] at hr
  have hcd : ICEPICK_TYPE_C ≠ ICEPICK_TYPE_D := by decide
  by_cases hm : code &&& ICEPICK_TYPE_MASK = ICEPICK_TYPE_D
  · rw [hr, if_neg (not_not.mpr hm)]
    exact ⟨⟨fun _ => hm, fun _ => ⟨_, _, rfl⟩⟩,
      fun hC => absurd (hC.symm.trans hm) hcd, hcd⟩
  · rw [hr, if_pos hm]
    refine ⟨⟨?_, fun h => absurd h hm⟩, fun _ => rfl, hcd⟩
    rintro ⟨a, b, hab⟩
    exact absurd hab (by simp)

/-- Witness for C10: code `0x1CC5` has the type-C field `0x1cc0` and is
classified as a mismatch carrying the raw code. -/
theorem router_accepts_only_type_d_witness :
    (icepick_router_handler [⟨6, 0, 0, 0⟩] 0 0x1cc5).2.2 =
      IdentResult.mismatch 0x1cc5 :=
  (router_accepts_only_type_d [⟨6, 0, 0, 0⟩] 0 0x1cc5 (by decide)).2.1
    (by decide)

/-- C5: on a mismatching code, the handler's result is the mismatch, the
device table is exactly the state the `IR_ICEPICKCODE` addressing write
left (target holding `IR_ICEPICKCODE`, everyone else bypassed), and the
transport trace ends at the 32-bit DR read — no further chain operation
follows the detection. -/
theorem router_mismatch_leaves_state (devs : List jtag_dev_s) (i code : Nat)
    (hi : i < devs.length) (hc : code < 2 ^ 32)
    (hm : code &&& ICEPICK_TYPE_MASK ≠ ICEPICK_TYPE_D) :
    (icepick_router_handler devs i code).2.2 = IdentResult.mismatch code ∧
      (icepick_router_handler devs i code).1 =
        (icepick_write_ir devs i IR_ICEPICKCODE).1 ∧
      (∀ j, j < devs.length →
        ((icepick_router_handler devs i code).1.getD j
          defaultDev).current_ir =
          if j = i then IR_ICEPICKCODE else UINT32_MAX) ∧
      (icepick_router_handler devs i code).2.1 =
        (icepick_write_ir devs i IR_ICEPICKCODE).2 ++
          [TapEvent.shiftDR 32] := by
  refine ⟨?_, router_fst devs i code, ?_, router_trace devs i code⟩
  · rw [router_result devs i code, Nat.mod_eq_of_lt hc, if_pos hm]
  · intro j hj
    rw [router_fst]
    exact write_ir_selects_target devs i IR_ICEPICKCODE j hi (by decide) hj

/-- Witness for C5: a mismatching read (`0x1234C3D5`) against a
two-device chain leaves device 0 holding `IR_ICEPICKCODE`, device 1
bypassed, and a trace that is exactly the addressing write followed by
the single DR read. -/
theorem router_mismatch_leaves_state_witness :
    (icepick_router_handler [⟨6, 0, 4, 0⟩, ⟨4, 6, 0, 0⟩] 0 0x1234c3d5).2.2 =
        IdentResult.mismatch 0x1234c3d5 ∧
      ((icepick_router_handler [⟨6, 0, 4, 0⟩, ⟨4, 6, 0, 0⟩] 0
          0x1234c3d5).1.getD 0 defaultDev).current_ir = IR_ICEPICKCODE ∧
      ((icepick_router_handler [⟨6, 0, 4, 0⟩, ⟨4, 6, 0, 0⟩] 0
          0x1234c3d5).1.getD 1 defaultDev).current_ir = UINT32_MAX ∧
      (icepick_router_handler [⟨6, 0, 4, 0⟩, ⟨4, 6, 0, 0⟩] 0
          0x1234c3d5).2.1 =
        (icepick_write_ir [⟨6, 0, 4, 0⟩, ⟨4, 6, 0, 0⟩] 0 IR_ICEPICKCODE).2 ++
          [TapEvent.shiftDR 32] := by
  have h := router_mismatch_leaves_state [⟨6, 0, 4, 0⟩, ⟨4, 6, 0, 0⟩] 0
    0x1234c3d5 (by decide) (by decide) (by decide)
  exact ⟨h.1, (h.2.2.1 0 (by decide)).trans (by decide),
    (h.2.2.1 1 (by decide)).trans (by decide), h.2.2.2⟩

/-- C7: invoking `icepick_write_ir` twice in a row with the same device
and instruction produces bit-identical transport call traces, and the
second call leaves the table exactly as the first did. -/
theorem write_ir_idempotent (devs : List jtag_dev_s) (i x : Nat) :
    (icepick_write_ir ((icepick_write_ir devs i x).1) i x).2 =
        (icepick_write_ir devs i x).2 ∧
      (icepick_write_ir ((icepick_write_ir devs i x).1) i x).1 =
        (icepick_write_ir devs i x).1 := by
  obtain ⟨h1, h2, h3⟩ := write_ir_getD_attrs devs i x i
  constructor
  · rw [write_ir_snd, write_ir_snd, h1, h2, h3]
  · apply List.ext_getElem?
    intro j
    rw [write_ir_getElem? ((icepick_write_ir devs i x).1) i x j,
      write_ir_getElem? devs i x j]
    by_cases h : j = i
    · rw [if_pos h, if_pos h]
      cases devs[j]? with
      | none => rfl
      | some e => rfl
    · rw [if_neg h, if_neg h]
      cases devs[j]? with
      | none => rfl
      | some e => rfl

/-- C8: neither `icepick_write_ir` nor `icepick_router_handler` changes
anything in the device table except `current_ir`: the number of devices
and every device's `ir_len`, `ir_prescan` and `ir_postscan` are
preserved at every position. -/
theorem core_frame (devs : List jtag_dev_s) (i x code j : Nat) :
    (icepick_write_ir devs i x).1.length = devs.length ∧
      (icepick_router_handler devs i code).1.length = devs.length ∧
      ((icepick_write_ir devs i x).1.getD j defaultDev).ir_len =
        (devs.getD j defaultDev).ir_len ∧
      ((icepick_write_ir devs i x).1.getD j defaultDev).ir_prescan =
        (devs.getD j defaultDev).ir_prescan ∧
      ((icepick_write_ir devs i x).1.getD j defaultDev).ir_postscan =
        (devs.getD j defaultDev).ir_postscan ∧
      ((icepick_router_handler devs i code).1.getD j defaultDev).ir_len =
        (devs.getD j defaultDev).ir_len ∧
      ((icepick_router_handler devs i code).1.getD j
          defaultDev).ir_prescan =
        (devs.getD j defaultDev).ir_prescan ∧
      ((icepick_router_handler devs i code).1.getD j
          defaultDev).ir_postscan =
        (devs.getD j defaultDev).ir_postscan := by
  have hlen : ∀ y : Nat, (icepick_write_ir devs i y).1.length = devs.length := by
    intro y
    rw [write_ir_fst]
    simp
  obtain ⟨h1, h2, h3⟩ := write_ir_getD_attrs devs i x j
  obtain ⟨h4, h5, h6⟩ := write_ir_getD_attrs devs i IR_ICEPICKCODE j
  refine ⟨hlen x, ?_, h1, h2, h3, ?_, ?_, ?_⟩ <;> rw [router_fst]
  · exact hlen IR_ICEPICKCODE
  · exact h4
  · exact h5
  · exact h6

lemma irBits_mod (x len : Nat) : irBits x len = irBits (x % 2 ^ len) len := by
  unfold irBits
  apply List.map_congr_left
  intro k hk
  rw [List.mem_range] at hk
  have h256 : (256 : Nat) = 2 ^ 8 := by norm_num
  rw [h256, Nat.testBit_mod_two_pow, Nat.testBit_mod_two_pow,
    Nat.testBit_mod_two_pow]
  by_cases h8 : k < 8 <;> simp [h8, hk]

/-- C4 counterexample: with a target whose `ir_postscan` is 0, the
postscan-phase transport shift call is still issued — the trace contains
three `tdi_seq` calls, the last being the postscan phase's call
`tdi_seq(true, ones, 0)` (flagged final, zero bits) — refuting the claim
that a transport shift call for this phase is only issued when
`postscan > 0`. -/
theorem write_ir_postscan_counterexample :
    (([⟨4, 0, 0, 0⟩] : List jtag_dev_s).getD 0 defaultDev).ir_postscan = 0 ∧
      (icepick_write_ir [⟨4, 0, 0, 0⟩] 0 5).2.filter isTdiSeq =
        [TapEvent.tdiSeq false [],
          TapEvent.tdiSeq true [true, false, true, false],
          TapEvent.tdiSeq true []] := by decide

/-- C4 (amended): the postscan-phase transport shift call is issued
unconditionally as the fourth transport call, flagged final, carrying
`ir_postscan` logical-1 bits; when `ir_postscan = 0` it presents no bits
on the wire, so no postscan filler bit occurs. -/
theorem write_ir_postscan_call (devs : List jtag_dev_s) (i x : Nat) :
    (icepick_write_ir devs i x).2.length = 5 ∧
      (icepick_write_ir devs i x).2.getD 3 TapEvent.shiftIR =
        TapEvent.tdiSeq true
          (List.replicate (devs.getD i defaultDev).ir_postscan true) ∧
      ((devs.getD i defaultDev).ir_postscan = 0 →
        eventBits ((icepick_write_ir devs i x).2.getD 3 TapEvent.shiftIR) =
          []) := by
  refine ⟨by rw [write_ir_snd]; rfl, by rw [write_ir_snd]; rfl, ?_⟩
  intro h
  rw [write_ir_snd]
  show eventBits (TapEvent.tdiSeq true
    (List.replicate (devs.getD i defaultDev).ir_postscan true)) = []
  rw [h]
  rfl

/-- Witness for C4's amended theorem: on a single-device chain
(`postscan = 0`) the fourth transport call is the zero-bit, final-flagged
postscan call, and it presents no bits. -/
theorem write_ir_postscan_call_witness :
    (icepick_write_ir [⟨4, 0, 0, 0⟩] 0 9).2.length = 5 ∧
      (icepick_write_ir [⟨4, 0, 0, 0⟩] 0 9).2.getD 3 TapEvent.shiftIR =
        TapEvent.tdiSeq true [] ∧
      eventBits ((icepick_write_ir [⟨4, 0, 0, 0⟩] 0 9).2.getD 3
        TapEvent.shiftIR) = [] := by
  have h := write_ir_postscan_call [⟨4, 0, 0, 0⟩] 0 9
  exact ⟨h.1, h.2.1.trans (by decide), h.2.2 (by decide)⟩

/-- C9 counterexample: instruction `0xFF` does not fit the target's
4-bit IR, yet `icepick_write_ir` performs the full five-call transport
sequence and silently stores `0xFF` in `current_ir` — nothing detects a
precondition violation and nothing is fatal to the call. -/
theorem write_ir_no_check_counterexample :
    2 ^ (([⟨4, 0, 0, 0⟩] : List jtag_dev_s).getD 0 defaultDev).ir_len ≤
        0xff ∧
      (icepick_write_ir [⟨4, 0, 0, 0⟩] 0 0xff).2 ≠ [] ∧
      (icepick_write_ir [⟨4, 0, 0, 0⟩] 0 0xff).2.length = 5 ∧
      ((icepick_write_ir [⟨4, 0, 0, 0⟩] 0 0xff).1.getD 0
        defaultDev).current_ir = 0xff := by decide

/-- C9 (amended): `icepick_write_ir` performs no precondition
validation: for every device index and instruction it issues the same
five-call transport sequence, the instruction-phase call's bits depend
only on the instruction's low `ir_len` bits (a too-wide instruction is
silently truncated on the wire), and the full byte value is stored
unchecked in `current_ir`. -/
theorem write_ir_no_precondition_check (devs : List jtag_dev_s)
    (i x : Nat) :
    (icepick_write_ir devs i x).2.length = 5 ∧
      (icepick_write_ir devs i x).2.getD 2 TapEvent.shiftIR =
        TapEvent.tdiSeq
          (decide ((devs.getD i defaultDev).ir_postscan = 0))
          (irBits x (devs.getD i defaultDev).ir_len) ∧
      irBits x (devs.getD i defaultDev).ir_len =
        irBits (x % 2 ^ (devs.getD i defaultDev).ir_len)
          (devs.getD i defaultDev).ir_len ∧
      (i < devs.length →
        ((icepick_write_ir devs i x).1.getD i defaultDev).current_ir =
          x % 256) := by
  refine ⟨by rw [write_ir_snd]; rfl, by rw [write_ir_snd]; rfl,
    irBits_mod x (devs.getD i defaultDev).ir_len, ?_⟩
  intro hi
  rw [write_ir_getD, if_pos hi, if_pos rfl]

/-- Witness for C9's amended theorem: instruction `0xFE` against a
4-bit-IR device shifts only its low nibble (`[false, true, true, true]`)
and stores `0xFE` in the table, with the full five-call sequence. -/
theorem write_ir_no_precondition_check_witness :
    (icepick_write_ir [⟨4, 0, 0, 0⟩] 0 0xfe).2.length = 5 ∧
      (icepick_write_ir [⟨4, 0, 0, 0⟩] 0 0xfe).2.getD 2 TapEvent.shiftIR =
        TapEvent.tdiSeq true [false, true, true, true] ∧
      irBits 0xfe 4 = irBits (0xfe % 2 ^ 4) 4 ∧
      ((icepick_write_ir [⟨4, 0, 0, 0⟩] 0 0xfe).1.getD 0
        defaultDev).current_ir = 0xfe % 256 := by
  have h := write_ir_no_precondition_check [⟨4, 0, 0, 0⟩] 0 0xfe
  exact ⟨h.1, h.2.1.trans (by decide), h.2.2.1, h.2.2.2 (by decide)⟩

lemma tapStep_enter (s : TapState) :
    tapStep s TapEvent.shiftIR = TapState.shiftIRState := rfl

lemma tapStep_tdi_not_final (s : TapState) (bits : List Bool) :
    tapStep s (TapEvent.tdiSeq false bits) = s := by
  simp [tapStep]

lemma tapStep_shift_final (bits : List Bool) (h : bits ≠ []) :
    tapStep TapState.shiftIRState (TapEvent.tdiSeq true bits) =
      TapState.exit1IR := by
  simp [tapStep, h]

lemma tapStep_exit1_tdi (f : Bool) (bits : List Bool) :
    tapStep TapState.exit1IR (TapEvent.tdiSeq f bits) =
      TapState.exit1IR := by
  simp [tapStep]

lemma tapStep_return0 :
    tapStep TapState.exit1IR (TapEvent.returnIdle 0) =
      TapState.updateIR := rfl

/-- C6: every `icepick_write_ir` trace contains exactly one
`jtagtap_return_idle` call, with depth 0 (stop at Update-IR), as its
last call; run from Idle/Reset under the spec's transport state
semantics the trace ends at Update-IR, visiting exactly
Idle/Reset → Shift-IR → Exit1-IR → Update-IR; and no call of either
`icepick_write_ir` or `icepick_router_handler` requests the Idle/Reset
state. -/
theorem write_ir_state_sequence (devs : List jtag_dev_s) (i x code : Nat)
    (hlen : 0 < (devs.getD i defaultDev).ir_len) :
    (icepick_write_ir devs i x).2.filter isReturnIdle =
        [TapEvent.returnIdle 0] ∧
      (icepick_write_ir devs i x).2.getD 4 TapEvent.shiftIR =
        TapEvent.returnIdle 0 ∧
      (icepick_write_ir devs i x).2.length = 5 ∧
      runTap TapState.idleReset (icepick_write_ir devs i x).2 =
        TapState.updateIR ∧
      collapse (tapStates TapState.idleReset
          (icepick_write_ir devs i x).2) =
        [TapState.idleReset, TapState.shiftIRState, TapState.exit1IR,
          TapState.updateIR] ∧
      (∀ e ∈ (icepick_write_ir devs i x).2, requestsIdle e = false) ∧
      (∀ e ∈ (icepick_router_handler devs i code).2.1,
        requestsIdle e = false) := by
  have hstep3 : tapStep TapState.shiftIRState
      (TapEvent.tdiSeq (decide ((devs.getD i defaultDev).ir_postscan = 0))
        (irBits x (devs.getD i defaultDev).ir_len)) =
      (if (devs.getD i defaultDev).ir_postscan = 0 then TapState.exit1IR
        else TapState.shiftIRState) := by
    by_cases hq : (devs.getD i defaultDev).ir_postscan = 0
    · rw [if_pos hq, hq, decide_eq_true_eq.mpr rfl]
      exact tapStep_shift_final _ (irBits_ne_nil x _ hlen)
    · rw [if_neg hq, decide_eq_false hq]
      exact tapStep_tdi_not_final _ _
  have hstep4 : tapStep
      (if (devs.getD i defaultDev).ir_postscan = 0 then TapState.exit1IR
        else TapState.shiftIRState)
      (TapEvent.tdiSeq true
        (List.replicate (devs.getD i defaultDev).ir_postscan true)) =
      TapState.exit1IR := by
    by_cases hq : (devs.getD i defaultDev).ir_postscan = 0
    · rw [if_pos hq]
      exact tapStep_exit1_tdi _ _
    · rw [if_neg hq]
      refine tapStep_shift_final _ ?_
      simp only [ne_eq, List.replicate_eq_nil_iff]
      exact hq
  have hreq : ∀ y : Nat, ∀ e ∈ (icepick_write_ir devs i y).2,
      requestsIdle e = false := by
    intro y e he
    rw [write_ir_snd] at he
    simp only [List.mem_cons, List.not_mem_nil, or_false] at he
    rcases he with rfl | rfl | rfl | rfl | rfl <;> rfl
  refine ⟨by rw [write_ir_snd]; rfl, by rw [write_ir_snd]; rfl,
    by rw [write_ir_snd]; rfl, ?_, ?_, hreq x, ?_⟩
  · rw [write_ir_snd]
    simp only [runTap, List.foldl]
    rw [tapStep_enter, tapStep_tdi_not_final, hstep3, hstep4,
      tapStep_return0]
  · rw [write_ir_snd]
    simp only [tapStates]
    rw [tapStep_enter, tapStep_tdi_not_final, hstep3, hstep4,
      tapStep_return0]
    by_cases hq : (devs.getD i defaultDev).ir_postscan = 0
    · rw [if_pos hq]
      decide
    · rw [if_neg hq]
      decide
  · intro e he
    rw [router_trace] at he
    rcases List.mem_append.mp he with h | h
    · exact hreq IR_ICEPICKCODE e h
    · simp only [List.mem_singleton] at h
      rw [h]
      rfl

/-- Witness for C6: the 3-device example chain, addressing device 1 —
one `return_to_state(0)` call, final state Update-IR, state sequence
Idle/Reset → Shift-IR → Exit1-IR → Update-IR, and the
`return_to_state(0)` call does not request Idle. -/
theorem write_ir_state_sequence_witness :
    (icepick_write_ir [⟨4, 0, 10, 0⟩, ⟨6, 4, 4, 0⟩, ⟨4, 10, 0, 0⟩] 1
          42).2.filter isReturnIdle = [TapEvent.returnIdle 0] ∧
      runTap TapState.idleReset
          (icepick_write_ir [⟨4, 0, 10, 0⟩, ⟨6, 4, 4, 0⟩, ⟨4, 10, 0, 0⟩] 1
            42).2 =
        TapState.updateIR ∧
      collapse (tapStates TapState.idleReset
          (icepick_write_ir [⟨4, 0, 10, 0⟩, ⟨6, 4, 4, 0⟩, ⟨4, 10, 0, 0⟩] 1
            42).2) =
        [TapState.idleReset, TapState.shiftIRState, TapState.exit1IR,
          TapState.updateIR] ∧
      requestsIdle (TapEvent.returnIdle 0) = false := by
  have h := write_ir_state_sequence [⟨4, 0, 10, 0⟩, ⟨6, 4, 4, 0⟩,
    ⟨4, 10, 0, 0⟩] 1 42 0 (by decide)
  exact ⟨h.1, h.2.2.2.1, h.2.2.2.2.1,
    h.2.2.2.2.2.1 (TapEvent.returnIdle 0) (by decide)⟩

end Icepick
